import Mathlib

/-!
Shallow embedding of `dineth.py`: a dashboard that fabricates synthetic
survey records (`generate_survey_data`) and, on each refresh
(`update_dashboard`), appends one record to a process-wide DataFrame,
filters it by the selected program (falling back to the whole DataFrame
when the filter is empty), derives jittered numeric projections and
returns chart data plus a summary string.

Randomness is modelled by explicit inputs: each record consumes a uniform
program index (`np.random.choice(programs)`), a real-valued hidden score
(`np.random.normal(5, 2.5)`), and one inverse-CDF sample `u ∈ [0,1)` per
weighted categorical draw (`np.random.choice(..., p=[...])`).  The jitter
arrays (`np.random.uniform(-0.3, 0.3, len)`) are modelled as streams
`ℕ → ℚ` of per-row offsets.  Float arithmetic is modelled exactly over `ℚ`.
-/

set_option autoImplicit false

namespace Dineth

/-- One row of the survey DataFrame.  The two numeric columns only appear
after `update_dashboard` writes them (pandas rows missing the column hold
NaN, modelled by `none`). -/
structure Row where
  Program_of_Study : String
  Average_Daily_SM_Usage : String
  Daily_Study_Work_Hours : String
  Distraction_Frequency : String
  Productivity_Impact : String
  SM_Numeric : Option ℚ := none
  Study_Numeric : Option ℚ := none
deriving DecidableEq, Repr

/-- The randomness one generated record consumes, in draw order. -/
structure Rand where
  programIdx : Fin 4
  hidden_sm_score : ℚ
  uDistraction : ℚ
  uImpact : ℚ
  uStudy : ℚ

/-- The four fixed program names (`programs` in the source). -/
def programs : List String :=
  ["Data science", "Fashion design", "Arts and Interior Architecture",
   "Psychology & Counselling"]

/-- `np.random.choice(options, p=weights)` by inverse CDF: walk the
cumulative weights with the uniform sample `u`.  With `u ∈ [0,1)` and
weights summing to 1 the last option absorbs the tail. -/
def weightedChoice : List (String × ℚ) → ℚ → String
  | [], _ => ""
  | [(s, _)], _ => s
  | (s, p) :: b :: rest, u => if u < p then s else weightedChoice (b :: rest) (u - p)

/-- The `if/elif` threshold chain of lines 21–25 mapping the hidden score
to the `Average_Daily_SM_Usage` bucket. -/
def smBucket (score : ℚ) : String :=
  if score < 2 then "Less than 1 hour"
  else if score < 4 then "1–2 hours"
  else if score < 6 then "3–4 hours"
  else if score < 8 then "5–6 hours"
  else "More than 6 hours"

/-- The regime branch of lines 27–38: heavy (`score > 6`), light
(`score < 3`), otherwise average; returns
(distraction, impact, study_choice). -/
def regimeChoices (r : Rand) : String × String × String :=
  if r.hidden_sm_score > 6 then
    (weightedChoice [("Often", 0.4), ("Always", 0.6)] r.uDistraction,
     weightedChoice [("Somewhat Negative", 0.4), ("Strongly Negative", 0.6)] r.uImpact,
     weightedChoice [("Less than 2 hours", 0.6), ("2–4 hours", 0.4)] r.uStudy)
  else if r.hidden_sm_score < 3 then
    (weightedChoice [("Never", 0.3), ("Rarely", 0.7)] r.uDistraction,
     weightedChoice [("Strongly Positive", 0.2), ("Somewhat Positive", 0.3),
                     ("Neutral", 0.5)] r.uImpact,
     weightedChoice [("5–7 hours", 0.6), ("8+ hours", 0.4)] r.uStudy)
  else
    (weightedChoice [("Sometimes", 0.7), ("Often", 0.3)] r.uDistraction,
     weightedChoice [("Neutral", 0.7), ("Somewhat Negative", 0.3)] r.uImpact,
     weightedChoice [("2–4 hours", 0.5), ("5–7 hours", 0.5)] r.uStudy)

/-- One loop iteration of `generate_survey_data` (lines 16–47). -/
def generate_record (r : Rand) : Row :=
  { Program_of_Study := programs.get ⟨r.programIdx.val, r.programIdx.isLt⟩
    Average_Daily_SM_Usage := smBucket r.hidden_sm_score
    Daily_Study_Work_Hours := (regimeChoices r).2.2
    Distraction_Frequency := (regimeChoices r).1
    Productivity_Impact := (regimeChoices r).2.1 }

/-- `generate_survey_data(n)`: `n` independently sampled records, the
`i`-th built from the `i`-th block `g i` of the random stream. -/
def generate_survey_data (n : ℕ) (g : ℕ → Rand) : List Row :=
  (List.range n).map fun i => generate_record (g i)

/-- `sm_map` (line 51): bucket → midpoint; a key absent from the dict maps
to NaN (`none`). -/
def sm_map (b : String) : Option ℚ :=
  if b = "Less than 1 hour" then some 0.5
  else if b = "1–2 hours" then some 1.5
  else if b = "3–4 hours" then some 3.5
  else if b = "5–6 hours" then some 5.5
  else if b = "More than 6 hours" then some 7
  else none

/-- `study_map` (line 52). -/
def study_map (b : String) : Option ℚ :=
  if b = "Less than 2 hours" then some 1
  else if b = "2–4 hours" then some 3
  else if b = "5–7 hours" then some 6
  else if b = "8+ hours" then some 9
  else none

/-- Lines 101–102: assign the two numeric columns from the categorical
ones (overwriting any stale values). -/
def mapColumns (rows : List Row) : List Row :=
  rows.map fun r =>
    { r with
      SM_Numeric := sm_map r.Average_Daily_SM_Usage
      Study_Numeric := study_map r.Daily_Study_Work_Hours }

/-- Lines 104–105: add the per-row uniform jitter to both numeric columns
(NaN stays NaN). -/
def addJitter (jx jy : ℕ → ℚ) (rows : List Row) : List Row :=
  rows.enum.map fun p =>
    { p.2 with
      SM_Numeric := p.2.SM_Numeric.map fun v => v + jx p.1
      Study_Numeric := p.2.Study_Numeric.map fun v => v + jy p.1 }

/-- `value_counts` of a column: one (value, count) pair per distinct value
(ordering modelled as first occurrence; the charts consume the
value-to-count mapping). -/
def valueCounts (l : List String) : List (String × ℕ) :=
  (l.foldl (fun acc v => if v ∈ acc then acc else acc ++ [v]) []).map
    fun v => (v, l.count v)

/-- The four outputs returned by the callback: scatter points
`(SM_Numeric, Study_Numeric, colour)`, scatter title, bar counts, pie
counts, summary text. -/
structure DashOutput where
  scatter : List (Option ℚ × Option ℚ × String)
  scatterTitle : String
  bar : List (String × ℕ)
  pie : List (String × ℕ)
  summary : String
deriving DecidableEq, Repr

/-- Lines 107–117: build the three figures and the summary from the
retained (already jittered) rows and the total record count. -/
def mkFigures (used : List Row) (selected_program : String) (total : ℕ) : DashOutput :=
  { scatter := used.map fun r => (r.SM_Numeric, r.Study_Numeric, r.Distraction_Frequency)
    scatterTitle := "Correlation (" ++ selected_program ++ ")"
    bar := valueCounts (used.map fun r => r.Distraction_Frequency)
    pie := valueCounts (used.map fun r => r.Productivity_Impact)
    summary := "Total Responses: " ++ toString total }

/-- `update_dashboard` (lines 92–117).  State passing makes the pandas
aliasing explicit: the matching branch works on a `.copy()` so the global
DataFrame stays `newDf`; the empty-filter fallback binds `filtered_df`
to `df_global` itself (no `.copy()`, line 98), so the column writes of
lines 101–105 land in the global DataFrame. -/
def update_dashboard (df_global : List Row) (r : Rand) (jx jy : ℕ → ℚ)
    (selected_program : String) : List Row × DashOutput :=
  let newDf := df_global ++ [generate_record r]
  let filtered := newDf.filter fun row => row.Program_of_Study == selected_program
  if filtered.isEmpty then
    let mutated := addJitter jx jy (mapColumns newDf)
    (mutated, mkFigures mutated selected_program newDf.length)
  else
    (newDf, mkFigures (addJitter jx jy (mapColumns filtered)) selected_program newDf.length)

/-- The rows the figures are computed from: the filtered DataFrame, or the
whole post-append DataFrame when the filter is empty (line 98). -/
def usedRows (df_global : List Row) (r : Rand) (selected_program : String) : List Row :=
  let newDf := df_global ++ [generate_record r]
  let filtered := newDf.filter fun row => row.Program_of_Study == selected_program
  if filtered.isEmpty then newDf else filtered

/-- The three behavioural regimes of lines 27–38. -/
inductive Regime where
  | heavy
  | light
  | average
deriving DecidableEq, Repr

/-- Which regime branch a hidden score takes, in the branch order of the
source: heavy if `score > 6`, else light if `score < 3`, else average. -/
def regimeOf (score : ℚ) : Regime :=
  if score > 6 then Regime.heavy
  else if score < 3 then Regime.light
  else Regime.average

end Dineth

namespace Dineth

theorem weightedChoice_mem (l : List (String × ℚ)) (h : l ≠ []) :
    ∀ u : ℚ, weightedChoice l u ∈ l.map Prod.fst := by
  induction l with
  | nil => exact absurd rfl h
  | cons a tl ih =>
    intro u
    obtain ⟨s, p⟩ := a
    cases tl with
    | nil => simp [weightedChoice]
    | cons b tb =>
      simp only [weightedChoice]
      split
      · simp
      · exact List.mem_cons_of_mem _ (ih (by simp) _)

theorem distraction_eq (r : Rand) :
    (generate_record r).Distraction_Frequency = (regimeChoices r).1 := rfl

theorem impact_eq (r : Rand) :
    (generate_record r).Productivity_Impact = (regimeChoices r).2.1 := rfl

theorem study_eq (r : Rand) :
    (generate_record r).Daily_Study_Work_Hours = (regimeChoices r).2.2 := rfl

theorem usage_eq (r : Rand) :
    (generate_record r).Average_Daily_SM_Usage = smBucket r.hidden_sm_score := rfl

theorem regimeChoices_heavy (r : Rand) (h : 6 < r.hidden_sm_score) :
    (regimeChoices r).1 ∈ ["Often", "Always"] ∧
    (regimeChoices r).2.1 ∈ ["Somewhat Negative", "Strongly Negative"] ∧
    (regimeChoices r).2.2 ∈ ["Less than 2 hours", "2–4 hours"] := by
  rw [regimeChoices, if_pos h]
  refine ⟨?_, ?_, ?_⟩
  · simpa using weightedChoice_mem [("Often", 0.4), ("Always", 0.6)] (by simp) r.uDistraction
  · simpa using
      weightedChoice_mem [("Somewhat Negative", 0.4), ("Strongly Negative", 0.6)] (by simp)
        r.uImpact
  · simpa using
      weightedChoice_mem [("Less than 2 hours", 0.6), ("2–4 hours", 0.4)] (by simp) r.uStudy

theorem regimeChoices_light (r : Rand) (h6 : ¬ 6 < r.hidden_sm_score)
    (h3 : r.hidden_sm_score < 3) :
    (regimeChoices r).1 ∈ ["Never", "Rarely"] ∧
    (regimeChoices r).2.1 ∈ ["Strongly Positive", "Somewhat Positive", "Neutral"] ∧
    (regimeChoices r).2.2 ∈ ["5–7 hours", "8+ hours"] := by
  rw [regimeChoices, if_neg h6, if_pos h3]
  refine ⟨?_, ?_, ?_⟩
  · simpa using weightedChoice_mem [("Never", 0.3), ("Rarely", 0.7)] (by simp) r.uDistraction
  · simpa using
      weightedChoice_mem
        [("Strongly Positive", 0.2), ("Somewhat Positive", 0.3), ("Neutral", 0.5)] (by simp)
        r.uImpact
  · simpa using weightedChoice_mem [("5–7 hours", 0.6), ("8+ hours", 0.4)] (by simp) r.uStudy

theorem regimeChoices_average (r : Rand) (h6 : ¬ 6 < r.hidden_sm_score)
    (h3 : ¬ r.hidden_sm_score < 3) :
    (regimeChoices r).1 ∈ ["Sometimes", "Often"] ∧
    (regimeChoices r).2.1 ∈ ["Neutral", "Somewhat Negative"] ∧
    (regimeChoices r).2.2 ∈ ["2–4 hours", "5–7 hours"] := by
  rw [regimeChoices, if_neg h6, if_neg h3]
  refine ⟨?_, ?_, ?_⟩
  · simpa using weightedChoice_mem [("Sometimes", 0.7), ("Often", 0.3)] (by simp) r.uDistraction
  · simpa using
      weightedChoice_mem [("Neutral", 0.7), ("Somewhat Negative", 0.3)] (by simp) r.uImpact
  · simpa using weightedChoice_mem [("2–4 hours", 0.5), ("5–7 hours", 0.5)] (by simp) r.uStudy

/-- C1: the daily_sm_usage bucket of every generated record is determined
from the record's hidden score by exactly the fixed thresholds 2, 4, 6, 8,
for every score including negative values and values above 10. -/
theorem sm_usage_bucket_thresholds (r : Rand) :
    (r.hidden_sm_score < 2 →
      (generate_record r).Average_Daily_SM_Usage = "Less than 1 hour") ∧
    (2 ≤ r.hidden_sm_score → r.hidden_sm_score < 4 →
      (generate_record r).Average_Daily_SM_Usage = "1–2 hours") ∧
    (4 ≤ r.hidden_sm_score → r.hidden_sm_score < 6 →
      (generate_record r).Average_Daily_SM_Usage = "3–4 hours") ∧
    (6 ≤ r.hidden_sm_score → r.hidden_sm_score < 8 →
      (generate_record r).Average_Daily_SM_Usage = "5–6 hours") ∧
    (8 ≤ r.hidden_sm_score →
      (generate_record r).Average_Daily_SM_Usage = "More than 6 hours") := by
  rw [usage_eq, smBucket]
  refine ⟨fun h1 => ?_, fun h1 h2 => ?_, fun h1 h2 => ?_, fun h1 h2 => ?_, fun h1 => ?_⟩ <;>
    split_ifs <;> first | rfl | linarith

/-- Witness for C1 at score 5: the bucket is "3–4 hours". -/
theorem sm_usage_bucket_thresholds_witness :
    (generate_record ⟨0, 5, 0, 0, 0⟩).Average_Daily_SM_Usage = "3–4 hours" :=
  (sm_usage_bucket_thresholds ⟨0, 5, 0, 0, 0⟩).2.2.1 (by norm_num) (by norm_num)

/-- C2: the regime is a three-way partition of the hidden score (Heavy iff
score > 6, Light iff score < 3, Average iff 3 ≤ score ≤ 6), and the three
regime-conditional fields are drawn only from the selected regime's
table. -/
theorem regime_partition_and_tables (r : Rand) :
    (regimeOf r.hidden_sm_score = Regime.heavy ↔ 6 < r.hidden_sm_score) ∧
    (regimeOf r.hidden_sm_score = Regime.light ↔ r.hidden_sm_score < 3) ∧
    (regimeOf r.hidden_sm_score = Regime.average ↔
      3 ≤ r.hidden_sm_score ∧ r.hidden_sm_score ≤ 6) ∧
    (regimeOf r.hidden_sm_score = Regime.heavy →
      (generate_record r).Distraction_Frequency ∈ ["Often", "Always"] ∧
      (generate_record r).Productivity_Impact ∈ ["Somewhat Negative", "Strongly Negative"] ∧
      (generate_record r).Daily_Study_Work_Hours ∈ ["Less than 2 hours", "2–4 hours"]) ∧
    (regimeOf r.hidden_sm_score = Regime.light →
      (generate_record r).Distraction_Frequency ∈ ["Never", "Rarely"] ∧
      (generate_record r).Productivity_Impact ∈
        ["Strongly Positive", "Somewhat Positive", "Neutral"] ∧
      (generate_record r).Daily_Study_Work_Hours ∈ ["5–7 hours", "8+ hours"]) ∧
    (regimeOf r.hidden_sm_score = Regime.average →
      (generate_record r).Distraction_Frequency ∈ ["Sometimes", "Often"] ∧
      (generate_record r).Productivity_Impact ∈ ["Neutral", "Somewhat Negative"] ∧
      (generate_record r).Daily_Study_Work_Hours ∈ ["2–4 hours", "5–7 hours"]) := by
  rw [distraction_eq, impact_eq, study_eq]
  by_cases h6 : 6 < r.hidden_sm_score
  · have hr : regimeOf r.hidden_sm_score = Regime.heavy := by rw [regimeOf, if_pos h6]
    rw [hr]
    refine ⟨⟨fun _ => h6, fun _ => rfl⟩, ⟨fun h => absurd h (by decide), fun h => by linarith⟩,
      ⟨fun h => absurd h (by decide), fun h => by linarith [h.2]⟩,
      fun _ => regimeChoices_heavy r h6,
      fun h => absurd h (by decide), fun h => absurd h (by decide)⟩
  · by_cases h3 : r.hidden_sm_score < 3
    · have hr : regimeOf r.hidden_sm_score = Regime.light := by
        rw [regimeOf, if_neg h6, if_pos h3]
      rw [hr]
      refine ⟨⟨fun h => absurd h (by decide), fun h => absurd h h6⟩, ⟨fun _ => h3, fun _ => rfl⟩,
        ⟨fun h => absurd h (by decide), fun h => by linarith [h.1]⟩,
        fun h => absurd h (by decide),
        fun _ => regimeChoices_light r h6 h3,
        fun h => absurd h (by decide)⟩
    · have hr : regimeOf r.hidden_sm_score = Regime.average := by
        rw [regimeOf, if_neg h6, if_neg h3]
      rw [hr]
      refine ⟨⟨fun h => absurd h (by decide), fun h => absurd h h6⟩,
        ⟨fun h => absurd h (by decide), fun h => absurd h h3⟩,
        ⟨fun _ => ⟨by linarith, by linarith⟩, fun _ => rfl⟩,
        fun h => absurd h (by decide), fun h => absurd h (by decide),
        fun _ => regimeChoices_average r h6 h3⟩

/-- Witness for C2 at score 7, distraction sample 1/2: the heavy table
applies. -/
theorem regime_partition_and_tables_witness :
    (generate_record ⟨0, 7, 1/2, 0, 0⟩).Distraction_Frequency ∈ ["Often", "Always"] ∧
    (generate_record ⟨0, 7, 1/2, 0, 0⟩).Productivity_Impact ∈
      ["Somewhat Negative", "Strongly Negative"] ∧
    (generate_record ⟨0, 7, 1/2, 0, 0⟩).Daily_Study_Work_Hours ∈
      ["Less than 2 hours", "2–4 hours"] :=
  (regime_partition_and_tables ⟨0, 7, 1/2, 0, 0⟩).2.2.2.1
    (by rw [regimeOf, if_pos (show (7 : ℚ) > 6 by norm_num)])

/-- C9: a record whose distraction_frequency is "Always" carries
heavy-regime impact and study values, never light-regime ones. -/
theorem always_implies_heavy_fields (r : Rand)
    (h : (generate_record r).Distraction_Frequency = "Always") :
    (generate_record r).Productivity_Impact ∈ ["Somewhat Negative", "Strongly Negative"] ∧
    (generate_record r).Daily_Study_Work_Hours ∈ ["Less than 2 hours", "2–4 hours"] := by
  rw [distraction_eq] at h
  by_cases h6 : 6 < r.hidden_sm_score
  · obtain ⟨_, i, st⟩ := regimeChoices_heavy r h6
    rw [impact_eq, study_eq]
    exact ⟨i, st⟩
  · by_cases h3 : r.hidden_sm_score < 3
    · obtain ⟨d, _, _⟩ := regimeChoices_light r h6 h3
      rw [h] at d
      exact absurd d (by decide)
    · obtain ⟨d, _, _⟩ := regimeChoices_average r h6 h3
      rw [h] at d
      exact absurd d (by decide)

/-- Witness for C9 at score 9, distraction sample 1/2 (which draws
"Always"). -/
theorem always_implies_heavy_fields_witness :
    (generate_record ⟨1, 9, 1/2, 0, 0⟩).Productivity_Impact ∈
      ["Somewhat Negative", "Strongly Negative"] ∧
    (generate_record ⟨1, 9, 1/2, 0, 0⟩).Daily_Study_Work_Hours ∈
      ["Less than 2 hours", "2–4 hours"] :=
  always_implies_heavy_fields ⟨1, 9, 1/2, 0, 0⟩ (by
    rw [distraction_eq, regimeChoices, if_pos (show (9 : ℚ) > 6 by norm_num)]
    show weightedChoice [("Often", 0.4), ("Always", 0.6)] (1/2) = "Always"
    rw [weightedChoice, if_neg (by norm_num)]
    rfl)

/-- C10: "More than 6 hours" usage forces the heavy-regime field values,
"Less than 1 hour" forces the light-regime ones, "3–4 hours" forces the
average-regime ones; the "1–2 hours" and "5–6 hours" buckets each co-occur
with two different regimes. -/
theorem bucket_regime_crossfield (r : Rand) :
    ((generate_record r).Average_Daily_SM_Usage = "More than 6 hours" →
      (generate_record r).Distraction_Frequency ∈ ["Often", "Always"] ∧
      (generate_record r).Productivity_Impact ∈ ["Somewhat Negative", "Strongly Negative"] ∧
      (generate_record r).Daily_Study_Work_Hours ∈ ["Less than 2 hours", "2–4 hours"]) ∧
    ((generate_record r).Average_Daily_SM_Usage = "Less than 1 hour" →
      (generate_record r).Distraction_Frequency ∈ ["Never", "Rarely"] ∧
      (generate_record r).Productivity_Impact ∈
        ["Strongly Positive", "Somewhat Positive", "Neutral"] ∧
      (generate_record r).Daily_Study_Work_Hours ∈ ["5–7 hours", "8+ hours"]) ∧
    ((generate_record r).Average_Daily_SM_Usage = "3–4 hours" →
      (generate_record r).Distraction_Frequency ∈ ["Sometimes", "Often"] ∧
      (generate_record r).Productivity_Impact ∈ ["Neutral", "Somewhat Negative"] ∧
      (generate_record r).Daily_Study_Work_Hours ∈ ["2–4 hours", "5–7 hours"]) ∧
    (∃ a b : ℚ, smBucket a = "1–2 hours" ∧ smBucket b = "1–2 hours" ∧
      regimeOf a ≠ regimeOf b) ∧
    (∃ a b : ℚ, smBucket a = "5–6 hours" ∧ smBucket b = "5–6 hours" ∧
      regimeOf a ≠ regimeOf b) := by
  rw [usage_eq, distraction_eq, impact_eq, study_eq]
  refine ⟨fun h => ?_, fun h => ?_, fun h => ?_, ⟨5/2, 7/2, ?_, ?_, ?_⟩, ⟨7, 6, ?_, ?_, ?_⟩⟩
  · rw [smBucket] at h
    split_ifs at h with h1 h2 h3 h4
    · exact absurd h (by decide)
    · exact absurd h (by decide)
    · exact absurd h (by decide)
    · exact absurd h (by decide)
    · exact regimeChoices_heavy r (by linarith)
  · rw [smBucket] at h
    split_ifs at h with h1 h2 h3 h4
    · exact regimeChoices_light r (by intro h6; linarith) (by linarith)
    · exact absurd h (by decide)
    · exact absurd h (by decide)
    · exact absurd h (by decide)
    · exact absurd h (by decide)
  · rw [smBucket] at h
    split_ifs at h with h1 h2 h3 h4
    · exact absurd h (by decide)
    · exact absurd h (by decide)
    · exact regimeChoices_average r (by intro h6; linarith) (by linarith)
    · exact absurd h (by decide)
    · exact absurd h (by decide)
  · rw [smBucket, if_neg (by norm_num), if_pos (by norm_num)]
  · rw [smBucket, if_neg (by norm_num), if_pos (by norm_num)]
  · rw [regimeOf, if_neg (by norm_num), if_pos (by norm_num),
      regimeOf, if_neg (by norm_num), if_neg (by norm_num)]
    decide
  · rw [smBucket, if_neg (by norm_num), if_neg (by norm_num), if_neg (by norm_num),
      if_pos (by norm_num)]
  · rw [smBucket, if_neg (by norm_num), if_neg (by norm_num), if_neg (by norm_num),
      if_pos (by norm_num)]
  · rw [regimeOf, if_pos (by norm_num), regimeOf, if_neg (by norm_num), if_neg (by norm_num)]
    decide

/-- Witness for C10 at score 17/2: the bucket is "More than 6 hours" and
the heavy-regime values follow. -/
theorem bucket_regime_crossfield_witness :
    (generate_record ⟨2, 17/2, 0, 0, 0⟩).Distraction_Frequency ∈ ["Often", "Always"] ∧
    (generate_record ⟨2, 17/2, 0, 0, 0⟩).Productivity_Impact ∈
      ["Somewhat Negative", "Strongly Negative"] ∧
    (generate_record ⟨2, 17/2, 0, 0, 0⟩).Daily_Study_Work_Hours ∈
      ["Less than 2 hours", "2–4 hours"] :=
  (bucket_regime_crossfield ⟨2, 17/2, 0, 0, 0⟩).1 (by
    rw [usage_eq, smBucket, if_neg (by norm_num), if_neg (by norm_num),
      if_neg (by norm_num), if_neg (by norm_num)])

theorem smBucket_mem (s : ℚ) :
    smBucket s ∈
      ["Less than 1 hour", "1–2 hours", "3–4 hours", "5–6 hours", "More than 6 hours"] := by
  rw [smBucket]
  split_ifs <;> simp

theorem ne_empty_of_mem {s : String} {l : List String} (h : s ∈ l) (h2 : "" ∉ l) :
    s ≠ "" := fun he => h2 (he ▸ h)

theorem record_fields_mem (r : Rand) :
    (generate_record r).Distraction_Frequency ∈
      ["Never", "Rarely", "Sometimes", "Often", "Always"] ∧
    (generate_record r).Productivity_Impact ∈
      ["Strongly Positive", "Somewhat Positive", "Neutral", "Somewhat Negative",
       "Strongly Negative"] ∧
    (generate_record r).Daily_Study_Work_Hours ∈
      ["Less than 2 hours", "2–4 hours", "5–7 hours", "8+ hours"] := by
  rw [distraction_eq, impact_eq, study_eq]
  by_cases h6 : 6 < r.hidden_sm_score
  · obtain ⟨d, i, st⟩ := regimeChoices_heavy r h6
    simp only [List.mem_cons, List.mem_singleton, List.not_mem_nil, or_false] at d i st ⊢
    exact ⟨by tauto, by tauto, by tauto⟩
  · by_cases h3 : r.hidden_sm_score < 3
    · obtain ⟨d, i, st⟩ := regimeChoices_light r h6 h3
      simp only [List.mem_cons, List.mem_singleton, List.not_mem_nil, or_false] at d i st ⊢
      exact ⟨by tauto, by tauto, by tauto⟩
    · obtain ⟨d, i, st⟩ := regimeChoices_average r h6 h3
      simp only [List.mem_cons, List.mem_singleton, List.not_mem_nil, or_false] at d i st ⊢
      exact ⟨by tauto, by tauto, by tauto⟩

/-- C8: generate(n) returns exactly n records, and every categorical field
of every record is a non-empty string from its fixed domain. -/
theorem generate_length_and_domains (n : ℕ) (g : ℕ → Rand) :
    (generate_survey_data n g).length = n ∧
    ∀ row ∈ generate_survey_data n g,
      (row.Program_of_Study ≠ "" ∧ row.Program_of_Study ∈ programs) ∧
      (row.Average_Daily_SM_Usage ≠ "" ∧ row.Average_Daily_SM_Usage ∈
        ["Less than 1 hour", "1–2 hours", "3–4 hours", "5–6 hours", "More than 6 hours"]) ∧
      (row.Daily_Study_Work_Hours ≠ "" ∧ row.Daily_Study_Work_Hours ∈
        ["Less than 2 hours", "2–4 hours", "5–7 hours", "8+ hours"]) ∧
      (row.Distraction_Frequency ≠ "" ∧ row.Distraction_Frequency ∈
        ["Never", "Rarely", "Sometimes", "Often", "Always"]) ∧
      (row.Productivity_Impact ≠ "" ∧ row.Productivity_Impact ∈
        ["Strongly Positive", "Somewhat Positive", "Neutral", "Somewhat Negative",
         "Strongly Negative"]) := by
  constructor
  · simp [generate_survey_data]
  · intro row hrow
    simp only [generate_survey_data, List.mem_map] at hrow
    obtain ⟨i, -, rfl⟩ := hrow
    obtain ⟨d, imp, st⟩ := record_fields_mem (g i)
    have hp : (generate_record (g i)).Program_of_Study ∈ programs := List.get_mem _ _ _
    have hu := smBucket_mem (g i).hidden_sm_score
    rw [← usage_eq] at hu
    exact ⟨⟨ne_empty_of_mem hp (by decide), hp⟩, ⟨ne_empty_of_mem hu (by decide), hu⟩,
      ⟨ne_empty_of_mem st (by decide), st⟩, ⟨ne_empty_of_mem d (by decide), d⟩,
      ⟨ne_empty_of_mem imp (by decide), imp⟩⟩

/-- Witness for C8 at n = 1: one record, with its program field in the
fixed program list. -/
theorem generate_length_and_domains_witness :
    (generate_survey_data 1 (fun _ => (⟨0, 5, 0, 0, 0⟩ : Rand))).length = 1 ∧
    (generate_record (⟨0, 5, 0, 0, 0⟩ : Rand)).Program_of_Study ∈ programs :=
  ⟨(generate_length_and_domains 1 (fun _ => (⟨0, 5, 0, 0, 0⟩ : Rand))).1,
   (((generate_length_and_domains 1 (fun _ => (⟨0, 5, 0, 0, 0⟩ : Rand))).2
      (generate_record (⟨0, 5, 0, 0, 0⟩ : Rand)) (by simp [generate_survey_data])).1).2⟩

theorem mapColumns_length (rows : List Row) : (mapColumns rows).length = rows.length := by
  simp [mapColumns]

theorem addJitter_length (jx jy : ℕ → ℚ) (rows : List Row) :
    (addJitter jx jy rows).length = rows.length := by
  simp [addJitter, List.enum_length]

/-- C5: every refresh grows the stored DataFrame by exactly one record,
for every selected program and every prior state. -/
theorem refresh_appends_exactly_one (df : List Row) (r : Rand) (jx jy : ℕ → ℚ)
    (sel : String) : (update_dashboard df r jx jy sel).1.length = df.length + 1 := by
  simp only [update_dashboard]
  split
  · simp [addJitter_length, mapColumns_length]
  · simp

/-- C6: the summary text is exactly "Total Responses: N" where N is the
length of the full unfiltered DataFrame after the append of the same
call. -/
theorem summary_counts_full_dataset (df : List Row) (r : Rand) (jx jy : ℕ → ℚ)
    (sel : String) :
    (update_dashboard df r jx jy sel).2.summary =
      "Total Responses: " ++ toString ((update_dashboard df r jx jy sel).1.length) ∧
    (update_dashboard df r jx jy sel).1.length = df.length + 1 := by
  simp only [update_dashboard]
  split
  · simp [mkFigures, addJitter_length, mapColumns_length]
  · simp [mkFigures]

/-- C4: when the selected program matches no record of the post-append
DataFrame, the refresh output is computed from the entire unfiltered
DataFrame — identical to applying no filter at all — and no error is
possible (the embedding is a total function). -/
theorem empty_filter_uses_full_dataset (df : List Row) (r : Rand) (jx jy : ℕ → ℚ)
    (sel : String)
    (h : (df ++ [generate_record r]).filter
        (fun row => row.Program_of_Study == sel) = []) :
    (update_dashboard df r jx jy sel).2 =
      mkFigures (addJitter jx jy (mapColumns (df ++ [generate_record r]))) sel
        (df.length + 1) := by
  have hc : ((df ++ [generate_record r]).filter
      (fun row => row.Program_of_Study == sel)).isEmpty = true := by
    rw [h]; rfl
  simp only [update_dashboard]
  rw [if_pos hc]
  simp

/-- Witness for C4: a one-record DataFrame filtered by the unknown program
name "Nope". -/
theorem empty_filter_uses_full_dataset_witness :
    (update_dashboard [] ⟨0, 3, 0, 0, 0⟩ (fun _ => 0) (fun _ => 0) "Nope").2 =
      mkFigures
        (addJitter (fun _ => 0) (fun _ => 0)
          (mapColumns ([] ++ [generate_record ⟨0, 3, 0, 0, 0⟩]))) "Nope"
        (List.length ([] : List Row) + 1) :=
  empty_filter_uses_full_dataset [] ⟨0, 3, 0, 0, 0⟩ (fun _ => 0) (fun _ => 0) "Nope"
    (by decide)

/-- C3: evaluating `update_dashboard` at a state whose single stored record
matches nothing under `selected_program = "Nope"` shows the empty-filter
fallback aliasing the global DataFrame: the pre-existing record acquires a
jittered `SM_Numeric` column, so the stored records are not left unchanged
apart from the append. -/
theorem fallback_aliasing_mutates_dataset :
    ((update_dashboard
        [⟨"Data science", "Less than 1 hour", "5–7 hours", "Never", "Neutral", none, none⟩]
        ⟨0, 3, 0, 0, 0⟩ (fun _ => 1/10) (fun _ => 1/10) "Nope").1.take 1 ≠
      [⟨"Data science", "Less than 1 hour", "5–7 hours", "Never", "Neutral", none, none⟩]) ∧
    ((update_dashboard
        [⟨"Data science", "Less than 1 hour", "5–7 hours", "Never", "Neutral", none, none⟩]
        ⟨0, 3, 0, 0, 0⟩ (fun _ => 1/10) (fun _ => 1/10) "Nope").1.map
          (fun row => row.SM_Numeric)).head? = some (some (0.5 + 1/10)) :=
  ⟨by decide, rfl⟩

theorem usedRows_scatter (df : List Row) (r : Rand) (jx jy : ℕ → ℚ) (sel : String) :
    (update_dashboard df r jx jy sel).2.scatter =
      (addJitter jx jy (mapColumns (usedRows df r sel))).map
        (fun row => (row.SM_Numeric, row.Study_Numeric, row.Distraction_Frequency)) := by
  simp only [update_dashboard, usedRows, mkFigures]
  split
  · rfl
  · rfl

theorem addJitter_mapColumns_getElem? (jx jy : ℕ → ℚ) (rows : List Row) (i : ℕ) :
    (addJitter jx jy (mapColumns rows))[i]? =
      rows[i]?.map fun row =>
        { row with
          SM_Numeric := (sm_map row.Average_Daily_SM_Usage).map fun v => v + jx i
          Study_Numeric := (study_map row.Daily_Study_Work_Hours).map fun v => v + jy i } := by
  simp only [addJitter, mapColumns, List.getElem?_map, List.getElem?_enum]
  cases rows[i]? <;> rfl

/-- C7: every plotted scatter coordinate is its record's mapped midpoint
(via sm_map and study_map) plus a per-point, per-axis jitter of magnitude
at most 0.3, independently per point and axis. -/
theorem scatter_jitter_within_bounds (df : List Row) (r : Rand) (jx jy : ℕ → ℚ)
    (sel : String) (hx : ∀ i, |jx i| ≤ 0.3) (hy : ∀ i, |jy i| ≤ 0.3) :
    ((update_dashboard df r jx jy sel).2.scatter.length = (usedRows df r sel).length) ∧
    ∀ (i : ℕ) (row : Row) (point : Option ℚ × Option ℚ × String),
      (usedRows df r sel)[i]? = some row →
      (update_dashboard df r jx jy sel).2.scatter[i]? = some point →
      (∀ m : ℚ, sm_map row.Average_Daily_SM_Usage = some m →
        ∃ x, point.1 = some x ∧ |x - m| ≤ 0.3) ∧
      (∀ m : ℚ, study_map row.Daily_Study_Work_Hours = some m →
        ∃ y, point.2.1 = some y ∧ |y - m| ≤ 0.3) := by
  rw [usedRows_scatter]
  refine ⟨by simp [addJitter_length, mapColumns_length], ?_⟩
  intro i row point h1 h2
  rw [List.getElem?_map, addJitter_mapColumns_getElem?, h1] at h2
  simp only [Option.map_some'] at h2
  obtain rfl :
      point = ((sm_map row.Average_Daily_SM_Usage).map fun v => v + jx i,
        (study_map row.Daily_Study_Work_Hours).map fun v => v + jy i,
        row.Distraction_Frequency) := (Option.some_injective _ h2).symm
  constructor
  · intro m hm
    rw [hm]
    exact ⟨m + jx i, rfl, by simpa using hx i⟩
  · intro m hm
    rw [hm]
    exact ⟨m + jy i, rfl, by simpa using hy i⟩

/-- Witness for C7: the first scatter point of a refresh from the empty
state, with constant jitter 1/10, lies within 0.3 of the midpoint 1.5 of
its record's "1–2 hours" bucket. -/
theorem scatter_jitter_within_bounds_witness :
    ∃ x,
      ((sm_map (generate_record (⟨0, 3, 0, 0, 0⟩ : Rand)).Average_Daily_SM_Usage).map
        fun v => v + (1 : ℚ)/10) = some x ∧ |x - 1.5| ≤ 0.3 :=
  ((scatter_jitter_within_bounds [] ⟨0, 3, 0, 0, 0⟩ (fun _ => 1/10) (fun _ => 1/10)
      "Data science" (by intro i; rw [abs_le]; norm_num)
      (by intro i; rw [abs_le]; norm_num)).2 0
      (generate_record ⟨0, 3, 0, 0, 0⟩)
      ((sm_map (generate_record (⟨0, 3, 0, 0, 0⟩ : Rand)).Average_Daily_SM_Usage).map
          (fun v => v + (1 : ℚ)/10),
       (study_map (generate_record (⟨0, 3, 0, 0, 0⟩ : Rand)).Daily_Study_Work_Hours).map
          (fun v => v + (1 : ℚ)/10),
       (generate_record (⟨0, 3, 0, 0, 0⟩ : Rand)).Distraction_Frequency)
      rfl rfl).1 1.5 rfl

end Dineth
